import Mathlib

/-!
# Task page controller (`src/pages/HomePage.jsx`)

A shallow embedding of the stateful part of the `HomePage` component: the five
pieces of component state, the remote calls it issues through `axios`, and
the handlers `fetchTasks`, `handleAddTask`, `handleUpdateTask`,
`handleDeleteTask`, `handleToggleComplete`.

Every handler is a function from a run (component state, remote state, log of
the calls issued so far) to a run.  An `await` is the point where a call is
issued: the log records the request, whether it succeeded, and the component
state in which it was in flight.
-/

namespace HomePage

/-! ## Data model -/

/-- One task as the remote service returns it. -/
structure Task where
  _id : String
  title : String
  description : String
  completed : Bool
  deriving DecidableEq

/-- A JSON value carried in a request body. -/
inductive Value where
  | str (s : String)
  | bool (b : Bool)
  deriving DecidableEq

/-- A request body: the fields of a JSON object, in order. -/
abbrev Payload := List (String × Value)

/-- The `snackbar` state: `{ open, message, severity }`. -/
structure Snackbar where
  opened : Bool
  message : String
  severity : String
  deriving DecidableEq

/-- The component state held by the five `useState` hooks. -/
structure State where
  tasks : List Task
  editingTask : Option Task
  loading : Bool
  error : Option String
  snackbar : Snackbar
  deriving DecidableEq

/-- The initial values passed to `useState`. -/
def State.initial : State :=
  { tasks := [], editingTask := none, loading := false, error := none,
    snackbar := { opened := false, message := "", severity := "success" } }

/-! ## Remote calls -/

/-- The four requests the component sends. -/
inductive Request where
  | get
  | post (body : Payload)
  | patch (id : String) (body : Payload)
  | delete (id : String)
  deriving DecidableEq

/-- The imported `axios` instance, taken as a parameter: each call acts on a
remote state `ρ`; `get` answers with the task array or fails, the other calls
succeed or fail (a rejected promise). -/
structure Axios (ρ : Type) where
  get : ρ → Option (List Task) × ρ
  post : Payload → ρ → Bool × ρ
  patch : String → Payload → ρ → Bool × ρ
  delete : String → ρ → Bool × ρ

/-- One issued call: the request, whether it succeeded, and the component
state while it was in flight. -/
structure Event where
  request : Request
  ok : Bool
  during : State
  deriving DecidableEq

/-- A run of the component against a remote service. -/
structure Run (ρ : Type) where
  ui : State
  remote : ρ
  log : List Event

/-- A run that begins in component state `s` against remote state `r`. -/
def start {ρ : Type} (s : State) (r : ρ) : Run ρ :=
  { ui := s, remote := r, log := [] }

/-! ## State setters -/

def setTasks {ρ : Type} (v : List Task) (c : Run ρ) : Run ρ :=
  { c with ui := { c.ui with tasks := v } }

def setEditingTask {ρ : Type} (v : Option Task) (c : Run ρ) : Run ρ :=
  { c with ui := { c.ui with editingTask := v } }

def setLoading {ρ : Type} (v : Bool) (c : Run ρ) : Run ρ :=
  { c with ui := { c.ui with loading := v } }

def setError {ρ : Type} (v : Option String) (c : Run ρ) : Run ρ :=
  { c with ui := { c.ui with error := v } }

def setSnackbar {ρ : Type} (v : Snackbar) (c : Run ρ) : Run ρ :=
  { c with ui := { c.ui with snackbar := v } }

/-- The `showSnackbar(message, severity)` helper; the source defaults
`severity` to `'success'`, which callers here pass explicitly. -/
def showSnackbar {ρ : Type} (message : String) (severity : String) (c : Run ρ) : Run ρ :=
  setSnackbar { opened := true, message := message, severity := severity } c

/-- The `handleCloseSnackbar` handler: `{ ...snackbar, open: false }`. -/
def handleCloseSnackbar {ρ : Type} (c : Run ρ) : Run ρ :=
  setSnackbar { c.ui.snackbar with opened := false } c

/-! ## Awaited calls -/

/-- Issue `axios.get('/api/tasks')`. -/
def awaitGet {ρ : Type} (ax : Axios ρ) (c : Run ρ) : Option (List Task) × Run ρ :=
  ((ax.get c.remote).1,
   { c with remote := (ax.get c.remote).2,
            log := c.log ++ [⟨Request.get, (ax.get c.remote).1.isSome, c.ui⟩] })

/-- Issue `axios.post('/api/tasks', taskData)`. -/
def awaitPost {ρ : Type} (ax : Axios ρ) (taskData : Payload) (c : Run ρ) : Bool × Run ρ :=
  ((ax.post taskData c.remote).1,
   { c with remote := (ax.post taskData c.remote).2,
            log := c.log ++ [⟨Request.post taskData, (ax.post taskData c.remote).1, c.ui⟩] })

/-- Issue `axios.patch('/api/tasks/' + id, body)`. -/
def awaitPatch {ρ : Type} (ax : Axios ρ) (id : String) (body : Payload) (c : Run ρ) :
    Bool × Run ρ :=
  ((ax.patch id body c.remote).1,
   { c with remote := (ax.patch id body c.remote).2,
            log := c.log ++ [⟨Request.patch id body, (ax.patch id body c.remote).1, c.ui⟩] })

/-- Issue `axios.delete('/api/tasks/' + id)`. -/
def awaitDelete {ρ : Type} (ax : Axios ρ) (id : String) (c : Run ρ) : Bool × Run ρ :=
  ((ax.delete id c.remote).1,
   { c with remote := (ax.delete id c.remote).2,
            log := c.log ++ [⟨Request.delete id, (ax.delete id c.remote).1, c.ui⟩] })

/-! ## Handlers -/

/-- The `fetchTasks` function.  Its own `try/catch/finally` handles a failed
`get`, so it always returns normally. -/
def fetchTasks {ρ : Type} (ax : Axios ρ) (c : Run ρ) : Run ρ :=
  let c := setLoading true c
  let c := setError none c
  match awaitGet ax c with
  | (some data, c) =>
      let c := setTasks data c
      setLoading false c
  | (none, c) =>
      let c := setError (some "Failed to load tasks. Please refresh the page.") c
      setLoading false c

/-- The `handleAddTask` handler. -/
def handleAddTask {ρ : Type} (ax : Axios ρ) (taskData : Payload) (c : Run ρ) : Run ρ :=
  let c := setError none c
  match awaitPost ax taskData c with
  | (true, c) =>
      let c := fetchTasks ax c
      showSnackbar "Task added successfully!" "success" c
  | (false, c) =>
      setError (some "Failed to add task. Please try again.") c

/-- The `handleUpdateTask` handler.  Reading `editingTask._id` while
`editingTask` is `null` throws inside the `try`, before any request is sent,
and lands in the same `catch`. -/
def handleUpdateTask {ρ : Type} (ax : Axios ρ) (taskData : Payload) (c : Run ρ) : Run ρ :=
  let c := setError none c
  match c.ui.editingTask with
  | none =>
      setError (some "Failed to update task. Please try again.") c
  | some editingTask =>
      match awaitPatch ax editingTask._id taskData c with
      | (true, c) =>
          let c := setEditingTask none c
          let c := fetchTasks ax c
          showSnackbar "Task updated successfully!" "success" c
      | (false, c) =>
          setError (some "Failed to update task. Please try again.") c

/-- The `handleDeleteTask` handler. -/
def handleDeleteTask {ρ : Type} (ax : Axios ρ) (taskId : String) (c : Run ρ) : Run ρ :=
  let c := setError none c
  match awaitDelete ax taskId c with
  | (true, c) =>
      let c := fetchTasks ax c
      showSnackbar "Task deleted!" "info" c
  | (false, c) =>
      setError (some "Failed to delete task. Please try again.") c

/-- The `handleToggleComplete` handler. -/
def handleToggleComplete {ρ : Type} (ax : Axios ρ) (task : Task) (c : Run ρ) : Run ρ :=
  let c := setError none c
  match awaitPatch ax task._id [("completed", Value.bool (!task.completed))] c with
  | (true, c) =>
      let c := fetchTasks ax c
      showSnackbar
        ("Task marked as " ++ (if !task.completed then "completed" else "incomplete") ++ "!")
        "success" c
  | (false, c) =>
      setError (some "Failed to update task status.") c

/-- The operations the page offers. -/
inductive Op where
  | refresh
  | add (taskData : Payload)
  | update (taskData : Payload)
  | delete (taskId : String)
  | toggleComplete (task : Task)
  deriving DecidableEq

/-- Dispatch an operation to its handler. -/
def perform {ρ : Type} (ax : Axios ρ) : Op → Run ρ → Run ρ
  | Op.refresh, c => fetchTasks ax c
  | Op.add taskData, c => handleAddTask ax taskData c
  | Op.update taskData, c => handleUpdateTask ax taskData c
  | Op.delete taskId, c => handleDeleteTask ax taskId c
  | Op.toggleComplete task, c => handleToggleComplete ax task c

/-- Perform a sequence of operations, one after the other. -/
def performAll {ρ : Type} (ax : Axios ρ) : List Op → Run ρ → Run ρ
  | [], c => c
  | op :: ops, c => performAll ax ops (perform ax op c)

/-! ## A remote task service -/

/-- Modelled from the spec: the remote task service behind `/api/tasks`, whose
code is not part of this repository.  It holds the ordered list of tasks, the
counter from which it assigns identifiers, and a schedule of transport
failures: each incoming call consumes one entry, and `true` means that call
fails without effect. -/
structure Server where
  tasks : List Task
  nextId : Nat
  faults : List Bool
  deriving DecidableEq

/-- Modelled from the spec: whether the next call hits a transport failure. -/
def Server.faulty (s : Server) : Bool :=
  s.faults.headD false

/-- Modelled from the spec: consume one entry of the failure schedule. -/
def Server.tick (s : Server) : Server :=
  { s with faults := s.faults.tail }

/-- Modelled from the spec: set one field of a task from a request body; the
identifier is server-assigned and immutable, unknown fields are ignored. -/
def setField (t : Task) : String × Value → Task
  | ("title", Value.str v) => { t with title := v }
  | ("description", Value.str v) => { t with description := v }
  | ("completed", Value.bool b) => { t with completed := b }
  | _ => t

/-- Modelled from the spec: set the fields given in a request body. -/
def applyFields (body : Payload) (t : Task) : Task :=
  body.foldl setField t

/-- Modelled from the spec: `GET /api/tasks` answers with the current list. -/
def Server.get (s : Server) : Option (List Task) × Server :=
  if s.faulty then (none, s.tick) else (some s.tasks, s.tick)

/-- Modelled from the spec: `POST /api/tasks` creates a task from the body
under a fresh identifier and appends it. -/
def Server.post (body : Payload) (s : Server) : Bool × Server :=
  if s.faulty then (false, s.tick)
  else
    (true,
     { s.tick with
       tasks := s.tasks ++
         [applyFields body
           { _id := toString s.nextId, title := "", description := "", completed := false }],
       nextId := s.nextId + 1 })

/-- Modelled from the spec: `PATCH /api/tasks/{id}` sets the given fields of
the task with that identifier, and fails when there is none. -/
def Server.patch (id : String) (body : Payload) (s : Server) : Bool × Server :=
  if s.faulty then (false, s.tick)
  else if s.tasks.any (fun t => t._id == id) then
    (true,
     { s.tick with
       tasks := s.tasks.map (fun t => if t._id == id then applyFields body t else t) })
  else (false, s.tick)

/-- Modelled from the spec: `DELETE /api/tasks/{id}` removes the task with
that identifier, and fails when there is none. -/
def Server.delete (id : String) (s : Server) : Bool × Server :=
  if s.faulty then (false, s.tick)
  else if s.tasks.any (fun t => t._id == id) then
    (true, { s.tick with tasks := s.tasks.filter (fun t => !(t._id == id)) })
  else (false, s.tick)

/-- Modelled from the spec: the remote task client bound to the service. -/
def serverAxios : Axios Server :=
  { get := Server.get, post := Server.post, patch := Server.patch, delete := Server.delete }


/-- The outcomes of the calls one operation issues, in order, when started in
component state `s` against remote state `r`. -/
def outcomes {ρ : Type} (ax : Axios ρ) (op : Op) (s : State) (r : ρ) : List Bool :=
  (perform ax op (start s r)).log.map Event.ok

/-- The requests one operation issues, in order. -/
def requests {ρ : Type} (ax : Axios ρ) (op : Op) (s : State) (r : ρ) : List Request :=
  (perform ax op (start s r)).log.map Event.request

/-- Whether an operation started from run `c` issues its mutation call and its
re-fetch and both succeed. -/
def succeeds {ρ : Type} (ax : Axios ρ) (op : Op) (c : Run ρ) : Bool :=
  outcomes ax op c.ui c.remote == [true, true]

/-- Whether every operation of a sequence succeeds when they are performed one
after the other from run `c`. -/
def allSucceed {ρ : Type} (ax : Axios ρ) : List Op → Run ρ → Bool
  | [], _ => true
  | op :: ops, c => succeeds ax op c && allSucceed ax ops (perform ax op c)

/-- The requests one operation issues, in order, each with the value of the
loading flag while it is in flight. -/
def flights {ρ : Type} (ax : Axios ρ) (op : Op) (s : State) (r : ρ) : List (Request × Bool) :=
  (perform ax op (start s r)).log.map (fun e => (e.request, e.during.loading))

/-- What the user does on the page: select a task for editing or cancel the
edit (`onEdit={setEditingTask}`, `onCancel={() => setEditingTask(null)}`), or
trigger one of the operations. -/
inductive Action where
  | selectForEdit (task : Option Task)
  | operate (op : Op)
  deriving DecidableEq

/-- Carry out one action on the page. -/
def act {ρ : Type} (ax : Axios ρ) : Action → Run ρ → Run ρ
  | Action.selectForEdit task, c => setEditingTask task c
  | Action.operate op, c => perform ax op c

/-- Carry out a sequence of actions, one after the other. -/
def actAll {ρ : Type} (ax : Axios ρ) : List Action → Run ρ → Run ρ
  | [], c => c
  | a :: as, c => actAll ax as (act ax a c)

/-! ## The service side of a sequence, from the spec -/

/-- Follows the spec's words, not the handlers: the service answers the
fetch-all that closes an operation; `none` when it refuses. -/
def specFetch (sel : Option Task) (srv : Server) : Option (Option Task × Server) :=
  if (Server.get srv).1.isSome then some (sel, (Server.get srv).2) else none

/-- Follows the spec's words (the table of operations), not the handlers: the
editing selection and the service after one action all of whose calls
succeed, `none` when a call is refused.  Add sends create; update sends
update-by-id for the selected task and clears the selection; delete sends
delete-by-id; toggleComplete sends update-by-id with the completed field
inverted; each is followed by fetch-all.  Selecting is local only. -/
def specStep : Action → Option Task × Server → Option (Option Task × Server)
  | Action.selectForEdit task, (_, srv) => some (task, srv)
  | Action.operate Op.refresh, (sel, srv) => specFetch sel srv
  | Action.operate (Op.add taskData), (sel, srv) =>
      if (Server.post taskData srv).1 then specFetch sel (Server.post taskData srv).2
      else none
  | Action.operate (Op.update taskData), (sel, srv) =>
      match sel with
      | none => none
      | some e =>
          if (Server.patch e._id taskData srv).1 then
            specFetch none (Server.patch e._id taskData srv).2
          else none
  | Action.operate (Op.delete taskId), (sel, srv) =>
      if (Server.delete taskId srv).1 then specFetch sel (Server.delete taskId srv).2
      else none
  | Action.operate (Op.toggleComplete task), (sel, srv) =>
      if (Server.patch task._id [("completed", Value.bool (!task.completed))] srv).1 then
        specFetch sel (Server.patch task._id [("completed", Value.bool (!task.completed))] srv).2
      else none

/-- Follows the spec's words: the editing selection and the service after a
sequence of actions all of whose calls succeed. -/
def specRun : List Action → Option Task × Server → Option (Option Task × Server)
  | [], x => some x
  | a :: as, x => (specStep a x).bind (specRun as)

/-! ## Sample inputs -/

/-- A task as the service stores it. -/
def milk : Task :=
  { _id := "t1", title := "Buy milk", description := "", completed := false }

/-- The same task once completed. -/
def milkDone : Task :=
  { _id := "t1", title := "Buy milk", description := "", completed := true }

/-- The body of an add request. -/
def addMilk : Payload :=
  [("title", Value.str "Buy milk"), ("completed", Value.bool false)]

/-- The body of an update request. -/
def retitle : Payload :=
  [("title", Value.str "Buy oat milk")]

/-- A service that holds no task and answers every call. -/
def emptyService : Server :=
  { tasks := [], nextId := 1, faults := [] }

/-- A service that holds one task and answers every call. -/
def service : Server :=
  { tasks := [milk], nextId := 2, faults := [] }

/-- A service that answers the first call and fails the second. -/
def serviceThenDown : Server :=
  { tasks := [milk], nextId := 2, faults := [false, true] }

/-- A service that fails the first call. -/
def serviceDown : Server :=
  { tasks := [milk], nextId := 2, faults := [true] }

/-- A second update request body. -/
def describe : Payload :=
  [("description", Value.str "two litres")]

/-- A session on the page: add a task, complete the first one, retitle it
through the form, select it again and describe it, then delete the added one. -/
def session : List Action :=
  [Action.operate (Op.add addMilk), Action.operate (Op.toggleComplete milk),
   Action.operate (Op.update retitle), Action.selectForEdit (some milkDone),
   Action.operate (Op.update describe), Action.operate (Op.delete "2")]

/-- The service after that session. -/
def serviceAfterSession : Server :=
  { tasks := [{ _id := "t1", title := "Buy oat milk", description := "two litres",
                completed := true }],
    nextId := 3, faults := [] }

/-- A page that shows one task, selected for editing, under an earlier error. -/
def editingMilk : State :=
  { tasks := [milk], editingTask := some milk, loading := false,
    error := some "Failed to load tasks. Please refresh the page.",
    snackbar := { opened := false, message := "", severity := "success" } }

/-! ## How each handler acts, by outcome of its calls -/

section Outcomes

variable {ρ : Type} (ax : Axios ρ)

theorem fetchTasks_ui_none (c : Run ρ) (h : (ax.get c.remote).1 = none) :
    (fetchTasks ax c).ui =
      { c.ui with loading := false,
                  error := some "Failed to load tasks. Please refresh the page." } := by
  unfold fetchTasks awaitGet
  simp [setLoading, setError, h]

theorem fetchTasks_ui_some (c : Run ρ) (data : List Task)
    (h : (ax.get c.remote).1 = some data) :
    (fetchTasks ax c).ui = { c.ui with tasks := data, loading := false, error := none } := by
  unfold fetchTasks awaitGet
  simp [setLoading, setError, setTasks, h]

end Outcomes


section Claims

variable {ρ : Type} (ax : Axios ρ)

/-- C5: when the fetch-all call of a refresh fails, the state ends with
loading false, the fetch-failure message as error, and the collection it had
before; when it succeeds with an empty list, the state ends with an empty
collection, loading false and no error. -/
theorem refresh_failure_and_empty (s : State) (r : ρ) :
    ((ax.get r).1 = none →
      (perform ax Op.refresh (start s r)).ui.loading = false ∧
      (perform ax Op.refresh (start s r)).ui.error =
        some "Failed to load tasks. Please refresh the page." ∧
      (perform ax Op.refresh (start s r)).ui.tasks = s.tasks) ∧
    ((ax.get r).1 = some [] →
      (perform ax Op.refresh (start s r)).ui.tasks = [] ∧
      (perform ax Op.refresh (start s r)).ui.loading = false ∧
      (perform ax Op.refresh (start s r)).ui.error = none) := by
  constructor
  · intro h
    simp only [perform]
    rw [fetchTasks_ui_none ax (start s r) h]
    simp [start]
  · intro h
    simp only [perform]
    rw [fetchTasks_ui_some ax (start s r) [] h]
    simp

theorem refresh_failure_and_empty_witness :
    ((perform serverAxios Op.refresh (start editingMilk serviceDown)).ui.loading = false ∧
      (perform serverAxios Op.refresh (start editingMilk serviceDown)).ui.error =
        some "Failed to load tasks. Please refresh the page." ∧
      (perform serverAxios Op.refresh (start editingMilk serviceDown)).ui.tasks =
        editingMilk.tasks) ∧
    ((perform serverAxios Op.refresh (start editingMilk emptyService)).ui.tasks = [] ∧
      (perform serverAxios Op.refresh (start editingMilk emptyService)).ui.loading = false ∧
      (perform serverAxios Op.refresh (start editingMilk emptyService)).ui.error = none) :=
  ⟨(refresh_failure_and_empty serverAxios editingMilk serviceDown).1 (by decide),
   (refresh_failure_and_empty serverAxios editingMilk emptyService).2 (by decide)⟩

/-- C1 as stated fails: an add whose create call succeeds and whose re-fetch
fails ends with the error set and with a notification that differs from the
one before the operation. -/
theorem refetch_failure_counterexample :
    (serverAxios.post addMilk serviceThenDown).1 = true ∧
    (serverAxios.get (serverAxios.post addMilk serviceThenDown).2).1 = none ∧
    (perform serverAxios (Op.add addMilk) (start State.initial serviceThenDown)).ui.error ≠
      none ∧
    (perform serverAxios (Op.add addMilk) (start State.initial serviceThenDown)).ui.snackbar ≠
      State.initial.snackbar := by
  decide

/-- C1 (amended): for add, update, delete and toggleComplete, when the mutation
call succeeds and the re-fetch that follows fails, the error is the
fetch-failure message and the success notification of the operation is raised
all the same. -/
theorem refetch_failure_still_notifies (s : State) (r : ρ) :
    (∀ taskData, (ax.post taskData r).1 = true → (ax.get (ax.post taskData r).2).1 = none →
      (perform ax (Op.add taskData) (start s r)).ui.error =
        some "Failed to load tasks. Please refresh the page." ∧
      (perform ax (Op.add taskData) (start s r)).ui.snackbar =
        ⟨true, "Task added successfully!", "success"⟩) ∧
    (∀ taskData e, s.editingTask = some e → (ax.patch e._id taskData r).1 = true →
      (ax.get (ax.patch e._id taskData r).2).1 = none →
      (perform ax (Op.update taskData) (start s r)).ui.error =
        some "Failed to load tasks. Please refresh the page." ∧
      (perform ax (Op.update taskData) (start s r)).ui.snackbar =
        ⟨true, "Task updated successfully!", "success"⟩) ∧
    (∀ taskId, (ax.delete taskId r).1 = true → (ax.get (ax.delete taskId r).2).1 = none →
      (perform ax (Op.delete taskId) (start s r)).ui.error =
        some "Failed to load tasks. Please refresh the page." ∧
      (perform ax (Op.delete taskId) (start s r)).ui.snackbar =
        ⟨true, "Task deleted!", "info"⟩) ∧
    (∀ task, (ax.patch task._id [("completed", Value.bool (!task.completed))] r).1 = true →
      (ax.get (ax.patch task._id [("completed", Value.bool (!task.completed))] r).2).1 = none →
      (perform ax (Op.toggleComplete task) (start s r)).ui.error =
        some "Failed to load tasks. Please refresh the page." ∧
      (perform ax (Op.toggleComplete task) (start s r)).ui.snackbar =
        ⟨true, if task.completed then "Task marked as incomplete!"
               else "Task marked as completed!", "success"⟩) := by
  refine ⟨?_, ?_, ?_, ?_⟩
  · intro d h1 h2
    simp [perform, handleAddTask, awaitPost, fetchTasks, awaitGet, start,
      setError, setLoading, setTasks, showSnackbar, setSnackbar, h1, h2]
  · intro d e he h1 h2
    simp [perform, handleUpdateTask, awaitPatch, fetchTasks, awaitGet, start,
      setError, setLoading, setTasks, setEditingTask, showSnackbar, setSnackbar, he, h1, h2]
  · intro d h1 h2
    simp [perform, handleDeleteTask, awaitDelete, fetchTasks, awaitGet, start,
      setError, setLoading, setTasks, showSnackbar, setSnackbar, h1, h2]
  · intro t h1 h2
    cases hc : t.completed <;>
      simp_all [perform, handleToggleComplete, awaitPatch, fetchTasks, awaitGet, start,
        setError, setLoading, setTasks, showSnackbar, setSnackbar]

theorem refetch_failure_still_notifies_witness :
    ((perform serverAxios (Op.add addMilk) (start editingMilk serviceThenDown)).ui.error =
        some "Failed to load tasks. Please refresh the page." ∧
      (perform serverAxios (Op.add addMilk) (start editingMilk serviceThenDown)).ui.snackbar =
        ⟨true, "Task added successfully!", "success"⟩) ∧
    ((perform serverAxios (Op.update retitle) (start editingMilk serviceThenDown)).ui.error =
        some "Failed to load tasks. Please refresh the page." ∧
      (perform serverAxios (Op.update retitle) (start editingMilk serviceThenDown)).ui.snackbar =
        ⟨true, "Task updated successfully!", "success"⟩) ∧
    ((perform serverAxios (Op.delete "t1") (start editingMilk serviceThenDown)).ui.error =
        some "Failed to load tasks. Please refresh the page." ∧
      (perform serverAxios (Op.delete "t1") (start editingMilk serviceThenDown)).ui.snackbar =
        ⟨true, "Task deleted!", "info"⟩) ∧
    ((perform serverAxios (Op.toggleComplete milk)
        (start editingMilk serviceThenDown)).ui.error =
        some "Failed to load tasks. Please refresh the page." ∧
      (perform serverAxios (Op.toggleComplete milk)
        (start editingMilk serviceThenDown)).ui.snackbar =
        ⟨true, "Task marked as completed!", "success"⟩) :=
  ⟨(refetch_failure_still_notifies serverAxios editingMilk serviceThenDown).1 addMilk
      (by decide) (by decide),
   (refetch_failure_still_notifies serverAxios editingMilk serviceThenDown).2.1 retitle milk
      (by decide) (by decide) (by decide),
   (refetch_failure_still_notifies serverAxios editingMilk serviceThenDown).2.2.1 "t1"
      (by decide) (by decide),
   (refetch_failure_still_notifies serverAxios editingMilk serviceThenDown).2.2.2 milk
      (by decide) (by decide)⟩

/-- C2 as stated fails: an update of a selected task whose update-by-id call
fails ends with the editing selection still set. -/
theorem update_failure_counterexample :
    editingMilk.editingTask = some milk ∧
    (serverAxios.patch milk._id retitle emptyService).1 = false ∧
    (perform serverAxios (Op.update retitle) (start editingMilk emptyService)).ui.editingTask ≠
      none := by
  decide

/-- C2 (amended): when an editing selection is set and the update-by-id call of
update fails, the error is the update-failure message, the editing selection
is still the one that was set, and the notification is unchanged. -/
theorem update_failure_keeps_selection (s : State) (r : ρ) (taskData : Payload) (e : Task)
    (hsel : s.editingTask = some e) (hfail : (ax.patch e._id taskData r).1 = false) :
    (perform ax (Op.update taskData) (start s r)).ui.error =
      some "Failed to update task. Please try again." ∧
    (perform ax (Op.update taskData) (start s r)).ui.editingTask = some e ∧
    (perform ax (Op.update taskData) (start s r)).ui.snackbar = s.snackbar := by
  simp [perform, handleUpdateTask, awaitPatch, start, setError, hsel, hfail]

theorem update_failure_keeps_selection_witness :
    (perform serverAxios (Op.update retitle) (start editingMilk emptyService)).ui.error =
      some "Failed to update task. Please try again." ∧
    (perform serverAxios (Op.update retitle) (start editingMilk emptyService)).ui.editingTask =
      some milk ∧
    (perform serverAxios (Op.update retitle) (start editingMilk emptyService)).ui.snackbar =
      editingMilk.snackbar :=
  update_failure_keeps_selection serverAxios editingMilk emptyService retitle milk
    (by decide) (by decide)

/-- C8: when the mutation call and the re-fetch both succeed, the notification
is visible and is: the added message with severity success for add; the
updated message with severity success for update, whose editing selection is
cleared; the deleted message with severity info for delete; and for
toggleComplete, severity success with the completed message exactly when the
value sent is true, and the incomplete message otherwise. -/
theorem success_notifications (s : State) (r : ρ) :
    (∀ taskData data, (ax.post taskData r).1 = true →
      (ax.get (ax.post taskData r).2).1 = some data →
      (perform ax (Op.add taskData) (start s r)).ui.snackbar =
        ⟨true, "Task added successfully!", "success"⟩) ∧
    (∀ taskData data e, s.editingTask = some e → (ax.patch e._id taskData r).1 = true →
      (ax.get (ax.patch e._id taskData r).2).1 = some data →
      (perform ax (Op.update taskData) (start s r)).ui.snackbar =
        ⟨true, "Task updated successfully!", "success"⟩ ∧
      (perform ax (Op.update taskData) (start s r)).ui.editingTask = none) ∧
    (∀ taskId data, (ax.delete taskId r).1 = true →
      (ax.get (ax.delete taskId r).2).1 = some data →
      (perform ax (Op.delete taskId) (start s r)).ui.snackbar =
        ⟨true, "Task deleted!", "info"⟩) ∧
    (∀ task data, (ax.patch task._id [("completed", Value.bool (!task.completed))] r).1 = true →
      (ax.get (ax.patch task._id [("completed", Value.bool (!task.completed))] r).2).1 =
        some data →
      (perform ax (Op.toggleComplete task) (start s r)).ui.snackbar =
        ⟨true, if (!task.completed) = true then "Task marked as completed!"
               else "Task marked as incomplete!", "success"⟩) := by
  refine ⟨?_, ?_, ?_, ?_⟩
  · intro d data h1 h2
    simp [perform, handleAddTask, awaitPost, fetchTasks, awaitGet, start,
      setError, setLoading, setTasks, showSnackbar, setSnackbar, h1, h2]
  · intro d data e he h1 h2
    simp [perform, handleUpdateTask, awaitPatch, fetchTasks, awaitGet, start,
      setError, setLoading, setTasks, setEditingTask, showSnackbar, setSnackbar, he, h1, h2]
  · intro d data h1 h2
    simp [perform, handleDeleteTask, awaitDelete, fetchTasks, awaitGet, start,
      setError, setLoading, setTasks, showSnackbar, setSnackbar, h1, h2]
  · intro t data h1 h2
    cases hc : t.completed <;>
      simp_all [perform, handleToggleComplete, awaitPatch, fetchTasks, awaitGet, start,
        setError, setLoading, setTasks, showSnackbar, setSnackbar]

theorem success_notifications_witness :
    (perform serverAxios (Op.add addMilk) (start editingMilk service)).ui.snackbar =
      ⟨true, "Task added successfully!", "success"⟩ ∧
    ((perform serverAxios (Op.update retitle) (start editingMilk service)).ui.snackbar =
        ⟨true, "Task updated successfully!", "success"⟩ ∧
      (perform serverAxios (Op.update retitle) (start editingMilk service)).ui.editingTask =
        none) ∧
    (perform serverAxios (Op.delete "t1") (start editingMilk service)).ui.snackbar =
      ⟨true, "Task deleted!", "info"⟩ ∧
    (perform serverAxios (Op.toggleComplete milk) (start editingMilk service)).ui.snackbar =
      ⟨true, "Task marked as completed!", "success"⟩ ∧
    (perform serverAxios (Op.toggleComplete milkDone) (start editingMilk service)).ui.snackbar =
      ⟨true, "Task marked as incomplete!", "success"⟩ :=
  ⟨(success_notifications serverAxios editingMilk service).1 addMilk
      [milk, { _id := "2", title := "Buy milk", description := "", completed := false }]
      (by decide) (by decide),
   (success_notifications serverAxios editingMilk service).2.1 retitle
      [{ _id := "t1", title := "Buy oat milk", description := "", completed := false }] milk
      (by decide) (by decide) (by decide),
   (success_notifications serverAxios editingMilk service).2.2.1 "t1" []
      (by decide) (by decide),
   (success_notifications serverAxios editingMilk service).2.2.2 milk [milkDone]
      (by decide) (by decide),
   (success_notifications serverAxios editingMilk service).2.2.2 milkDone [milk]
      (by decide) (by decide)⟩

/-- C9: for add, update, delete and toggleComplete, when the mutation call
itself fails, no re-fetch is issued, the collection, the loading flag and the
notification are unchanged, and the error is the fixed message of that
operation kind; the four messages and the fetch-failure message are pairwise
distinct. -/
theorem mutation_failure_frame (s : State) (r : ρ) :
    (∀ taskData, (ax.post taskData r).1 = false →
      requests ax (Op.add taskData) s r = [Request.post taskData] ∧
      (perform ax (Op.add taskData) (start s r)).ui =
        { s with error := some "Failed to add task. Please try again." }) ∧
    (∀ taskData e, s.editingTask = some e → (ax.patch e._id taskData r).1 = false →
      requests ax (Op.update taskData) s r = [Request.patch e._id taskData] ∧
      (perform ax (Op.update taskData) (start s r)).ui =
        { s with error := some "Failed to update task. Please try again." }) ∧
    (∀ taskId, (ax.delete taskId r).1 = false →
      requests ax (Op.delete taskId) s r = [Request.delete taskId] ∧
      (perform ax (Op.delete taskId) (start s r)).ui =
        { s with error := some "Failed to delete task. Please try again." }) ∧
    (∀ task, (ax.patch task._id [("completed", Value.bool (!task.completed))] r).1 = false →
      requests ax (Op.toggleComplete task) s r =
        [Request.patch task._id [("completed", Value.bool (!task.completed))]] ∧
      (perform ax (Op.toggleComplete task) (start s r)).ui =
        { s with error := some "Failed to update task status." }) ∧
    ["Failed to add task. Please try again.", "Failed to update task. Please try again.",
     "Failed to delete task. Please try again.", "Failed to update task status.",
     "Failed to load tasks. Please refresh the page."].Nodup := by
  refine ⟨?_, ?_, ?_, ?_, by decide⟩
  · intro d h1
    simp [requests, perform, handleAddTask, awaitPost, start, setError, h1]
  · intro d e he h1
    simp [requests, perform, handleUpdateTask, awaitPatch, start, setError, he, h1]
  · intro d h1
    simp [requests, perform, handleDeleteTask, awaitDelete, start, setError, h1]
  · intro t h1
    simp [requests, perform, handleToggleComplete, awaitPatch, start, setError, h1]

theorem mutation_failure_frame_witness :
    (requests serverAxios (Op.add addMilk) editingMilk serviceDown = [Request.post addMilk] ∧
      (perform serverAxios (Op.add addMilk) (start editingMilk serviceDown)).ui =
        { editingMilk with error := some "Failed to add task. Please try again." }) ∧
    (requests serverAxios (Op.update retitle) editingMilk serviceDown =
        [Request.patch "t1" retitle] ∧
      (perform serverAxios (Op.update retitle) (start editingMilk serviceDown)).ui =
        { editingMilk with error := some "Failed to update task. Please try again." }) ∧
    (requests serverAxios (Op.delete "t1") editingMilk serviceDown = [Request.delete "t1"] ∧
      (perform serverAxios (Op.delete "t1") (start editingMilk serviceDown)).ui =
        { editingMilk with error := some "Failed to delete task. Please try again." }) ∧
    (requests serverAxios (Op.toggleComplete milk) editingMilk serviceDown =
        [Request.patch "t1" [("completed", Value.bool true)]] ∧
      (perform serverAxios (Op.toggleComplete milk) (start editingMilk serviceDown)).ui =
        { editingMilk with error := some "Failed to update task status." }) :=
  ⟨(mutation_failure_frame serverAxios editingMilk serviceDown).1 addMilk (by decide),
   (mutation_failure_frame serverAxios editingMilk serviceDown).2.1 retitle milk
      (by decide) (by decide),
   (mutation_failure_frame serverAxios editingMilk serviceDown).2.2.1 "t1" (by decide),
   (mutation_failure_frame serverAxios editingMilk serviceDown).2.2.2.1 milk (by decide)⟩

/-- C4: for every starting state, also one whose error is set, and every
operation among refresh, add, update, delete and toggleComplete (update being
submitted, as the page does, while a task is selected): the operation issues a
first remote call and the error is cleared in the state in which that call,
and every later one, is in flight; the error is set in the final state if and
only if a remote call made by the operation failed; so an operation whose
calls all succeed ends with no error, whatever the error was before. -/
theorem error_cleared_then_set_on_failure (s : State) (r : ρ) (op : Op)
    (hsel : ∀ taskData, op = Op.update taskData → s.editingTask ≠ none) :
    (∃ e rest, (perform ax op (start s r)).log = e :: rest ∧ e.during.error = none) ∧
    (∀ e ∈ (perform ax op (start s r)).log, e.during.error = none) ∧
    ((perform ax op (start s r)).ui.error ≠ none ↔
      ∃ e ∈ (perform ax op (start s r)).log, e.ok = false) ∧
    ((∀ e ∈ (perform ax op (start s r)).log, e.ok = true) →
      (perform ax op (start s r)).ui.error = none) := by
  cases op with
  | refresh =>
    simp only [perform, fetchTasks, awaitGet, start, setError, setLoading, setTasks]
    cases h2 : (ax.get r).1 <;> simp [h2]
  | add d =>
    simp only [perform, handleAddTask, awaitPost, fetchTasks, awaitGet, start,
      setError, setLoading, setTasks, showSnackbar, setSnackbar]
    cases h1 : (ax.post d r).1 <;> cases h2 : (ax.get (ax.post d r).2).1 <;> simp [h1, h2]
  | update d =>
    simp only [perform, handleUpdateTask, awaitPatch, fetchTasks, awaitGet, start,
      setError, setLoading, setTasks, setEditingTask, showSnackbar, setSnackbar]
    cases he : s.editingTask with
    | none => exact absurd he (hsel d rfl)
    | some e =>
      cases h1 : (ax.patch e._id d r).1 <;> cases h2 : (ax.get (ax.patch e._id d r).2).1 <;>
        simp [h1, h2]
  | delete d =>
    simp only [perform, handleDeleteTask, awaitDelete, fetchTasks, awaitGet, start,
      setError, setLoading, setTasks, showSnackbar, setSnackbar]
    cases h1 : (ax.delete d r).1 <;> cases h2 : (ax.get (ax.delete d r).2).1 <;> simp [h1, h2]
  | toggleComplete t =>
    simp only [perform, handleToggleComplete, awaitPatch, fetchTasks, awaitGet, start,
      setError, setLoading, setTasks, showSnackbar, setSnackbar]
    cases h1 : (ax.patch t._id [("completed", Value.bool (!t.completed))] r).1 <;>
      cases h2 : (ax.get (ax.patch t._id [("completed", Value.bool (!t.completed))] r).2).1 <;>
      simp [h1, h2]

theorem error_cleared_then_set_on_failure_witness :
    (∃ e rest, (perform serverAxios (Op.update retitle) (start editingMilk service)).log =
        e :: rest ∧ e.during.error = none) ∧
    (perform serverAxios (Op.update retitle) (start editingMilk service)).ui.error = none ∧
    (perform serverAxios (Op.update retitle) (start editingMilk serviceThenDown)).ui.error ≠
      none :=
  ⟨(error_cleared_then_set_on_failure serverAxios editingMilk service (Op.update retitle)
      (fun _ _ => by decide)).1,
   (error_cleared_then_set_on_failure serverAxios editingMilk service (Op.update retitle)
      (fun _ _ => by decide)).2.2.2 (by decide),
   (error_cleared_then_set_on_failure serverAxios editingMilk serviceThenDown
      (Op.update retitle) (fun _ _ => by decide)).2.2.1.mpr (by decide)⟩

/-- C6: started with loading false, every operation, whatever the outcome of
its calls, has loading true while its fetch-all call is in flight, false
while its create, update or delete call is in flight, and false in the state
it ends in.  The calls are indeed issued: a refresh issues fetch-all under
loading true; add, update of the selected task, delete and toggleComplete
issue their mutation call under loading false and, once it succeeds,
fetch-all under loading true. -/
theorem loading_tracks_fetch (s : State) (r : ρ) (h : s.loading = false) :
    (∀ op, (∀ e ∈ (perform ax op (start s r)).log,
        (e.request = Request.get → e.during.loading = true) ∧
        (e.request ≠ Request.get → e.during.loading = false)) ∧
      (perform ax op (start s r)).ui.loading = false) ∧
    flights ax Op.refresh s r = [(Request.get, true)] ∧
    (∀ taskData, flights ax (Op.add taskData) s r =
      (Request.post taskData, false) ::
        (if (ax.post taskData r).1 = true then [(Request.get, true)] else [])) ∧
    (∀ taskData e, s.editingTask = some e → flights ax (Op.update taskData) s r =
      (Request.patch e._id taskData, false) ::
        (if (ax.patch e._id taskData r).1 = true then [(Request.get, true)] else [])) ∧
    (∀ taskId, flights ax (Op.delete taskId) s r =
      (Request.delete taskId, false) ::
        (if (ax.delete taskId r).1 = true then [(Request.get, true)] else [])) ∧
    (∀ task, flights ax (Op.toggleComplete task) s r =
      (Request.patch task._id [("completed", Value.bool (!task.completed))], false) ::
        (if (ax.patch task._id [("completed", Value.bool (!task.completed))] r).1 = true
          then [(Request.get, true)] else [])) := by
  refine ⟨?_, ?_, ?_, ?_, ?_, ?_⟩
  · intro op
    cases op with
    | refresh =>
      simp only [perform, fetchTasks, awaitGet, start, setError, setLoading, setTasks]
      cases h2 : (ax.get r).1 <;> simp [h2]
    | add d =>
      simp only [perform, handleAddTask, awaitPost, fetchTasks, awaitGet, start,
        setError, setLoading, setTasks, showSnackbar, setSnackbar]
      cases h1 : (ax.post d r).1 <;> cases h2 : (ax.get (ax.post d r).2).1 <;>
        simp [h1, h2, h]
    | update d =>
      simp only [perform, handleUpdateTask, awaitPatch, fetchTasks, awaitGet, start,
        setError, setLoading, setTasks, setEditingTask, showSnackbar, setSnackbar]
      cases he : s.editingTask with
      | none => simp [h]
      | some e =>
        cases h1 : (ax.patch e._id d r).1 <;>
          cases h2 : (ax.get (ax.patch e._id d r).2).1 <;> simp [h1, h2, h]
    | delete d =>
      simp only [perform, handleDeleteTask, awaitDelete, fetchTasks, awaitGet, start,
        setError, setLoading, setTasks, showSnackbar, setSnackbar]
      cases h1 : (ax.delete d r).1 <;> cases h2 : (ax.get (ax.delete d r).2).1 <;>
        simp [h1, h2, h]
    | toggleComplete t =>
      simp only [perform, handleToggleComplete, awaitPatch, fetchTasks, awaitGet, start,
        setError, setLoading, setTasks, showSnackbar, setSnackbar]
      cases h1 : (ax.patch t._id [("completed", Value.bool (!t.completed))] r).1 <;>
        cases h2 : (ax.get (ax.patch t._id [("completed", Value.bool (!t.completed))]
          r).2).1 <;> simp [h1, h2, h]
  · simp only [flights, perform, fetchTasks, awaitGet, start, setError, setLoading, setTasks]
    cases h2 : (ax.get r).1 <;> simp [h2]
  · intro d
    simp only [flights, perform, handleAddTask, awaitPost, fetchTasks, awaitGet, start,
      setError, setLoading, setTasks, showSnackbar, setSnackbar]
    cases h1 : (ax.post d r).1 <;> cases h2 : (ax.get (ax.post d r).2).1 <;>
      simp [h1, h2, h]
  · intro d e he
    simp only [flights, perform, handleUpdateTask, awaitPatch, fetchTasks, awaitGet, start,
      setError, setLoading, setTasks, setEditingTask, showSnackbar, setSnackbar, he]
    cases h1 : (ax.patch e._id d r).1 <;> cases h2 : (ax.get (ax.patch e._id d r).2).1 <;>
      simp [h1, h2, h]
  · intro d
    simp only [flights, perform, handleDeleteTask, awaitDelete, fetchTasks, awaitGet, start,
      setError, setLoading, setTasks, showSnackbar, setSnackbar]
    cases h1 : (ax.delete d r).1 <;> cases h2 : (ax.get (ax.delete d r).2).1 <;>
      simp [h1, h2, h]
  · intro t
    simp only [flights, perform, handleToggleComplete, awaitPatch, fetchTasks, awaitGet,
      start, setError, setLoading, setTasks, showSnackbar, setSnackbar]
    cases h1 : (ax.patch t._id [("completed", Value.bool (!t.completed))] r).1 <;>
      cases h2 : (ax.get (ax.patch t._id [("completed", Value.bool (!t.completed))]
        r).2).1 <;> simp [h1, h2, h]

theorem loading_tracks_fetch_witness :
    flights serverAxios Op.refresh State.initial service = [(Request.get, true)] ∧
    flights serverAxios (Op.add addMilk) State.initial service =
      [(Request.post addMilk, false), (Request.get, true)] ∧
    flights serverAxios (Op.update retitle) { State.initial with editingTask := some milk }
        service =
      [(Request.patch "t1" retitle, false), (Request.get, true)] ∧
    flights serverAxios (Op.delete "t1") State.initial serviceDown =
      [(Request.delete "t1", false)] ∧
    (perform serverAxios (Op.toggleComplete milk) (start State.initial service)).ui.loading =
      false :=
  ⟨(loading_tracks_fetch serverAxios State.initial service (by decide)).2.1,
   (loading_tracks_fetch serverAxios State.initial service (by decide)).2.2.1 addMilk,
   (loading_tracks_fetch serverAxios { State.initial with editingTask := some milk } service
      (by decide)).2.2.2.1 retitle milk (by decide),
   (loading_tracks_fetch serverAxios State.initial serviceDown (by decide)).2.2.2.2.1 "t1",
   ((loading_tracks_fetch serverAxios State.initial service (by decide)).1
      (Op.toggleComplete milk)).2⟩

end Claims

section Sequences

variable {ρ : Type} (ax : Axios ρ)

theorem perform_restart (op : Op) (c : Run ρ) :
    (perform ax op c).ui = (perform ax op (start c.ui c.remote)).ui ∧
    (perform ax op c).remote = (perform ax op (start c.ui c.remote)).remote ∧
    (perform ax op c).log = c.log ++ (perform ax op (start c.ui c.remote)).log := by
  cases op with
  | refresh =>
    simp only [perform, fetchTasks, awaitGet, start, setError, setLoading, setTasks]
    cases h2 : (ax.get c.remote).1 <;> simp [h2]
  | add d =>
    simp only [perform, handleAddTask, awaitPost, fetchTasks, awaitGet, start,
      setError, setLoading, setTasks, showSnackbar, setSnackbar]
    cases h1 : (ax.post d c.remote).1 <;> cases h2 : (ax.get (ax.post d c.remote).2).1 <;>
      simp [h1, h2]
  | update d =>
    simp only [perform, handleUpdateTask, awaitPatch, fetchTasks, awaitGet, start,
      setError, setLoading, setTasks, setEditingTask, showSnackbar, setSnackbar]
    cases he : c.ui.editingTask with
    | none => simp
    | some e =>
      cases h1 : (ax.patch e._id d c.remote).1 <;>
        cases h2 : (ax.get (ax.patch e._id d c.remote).2).1 <;> simp [h1, h2]
  | delete d =>
    simp only [perform, handleDeleteTask, awaitDelete, fetchTasks, awaitGet, start,
      setError, setLoading, setTasks, showSnackbar, setSnackbar]
    cases h1 : (ax.delete d c.remote).1 <;> cases h2 : (ax.get (ax.delete d c.remote).2).1 <;>
      simp [h1, h2]
  | toggleComplete t =>
    simp only [perform, handleToggleComplete, awaitPatch, fetchTasks, awaitGet, start,
      setError, setLoading, setTasks, showSnackbar, setSnackbar]
    cases h1 : (ax.patch t._id [("completed", Value.bool (!t.completed))] c.remote).1 <;>
      cases h2 : (ax.get (ax.patch t._id [("completed", Value.bool (!t.completed))]
        c.remote).2).1 <;> simp [h1, h2]

theorem perform_succeeds_fetch (op : Op) (c : Run ρ) (h : succeeds ax op c = true) :
    ∃ r', (ax.get r').1 = some (perform ax op c).ui.tasks ∧
      (perform ax op c).remote = (ax.get r').2 := by
  rw [(perform_restart ax op c).1, (perform_restart ax op c).2.1]
  revert h
  cases op with
  | refresh =>
    simp only [succeeds, outcomes, perform, fetchTasks, awaitGet, start, setError,
      setLoading, setTasks]
    cases h2 : (ax.get c.remote).1 <;> simp [h2]
  | add d =>
    simp only [succeeds, outcomes, perform, handleAddTask, awaitPost, fetchTasks,
      awaitGet, start, setError, setLoading, setTasks, showSnackbar, setSnackbar]
    cases h1 : (ax.post d c.remote).1 <;> cases h2 : (ax.get (ax.post d c.remote).2).1 <;>
      simp [h1, h2]
    exact ⟨_, h2, rfl⟩
  | update d =>
    simp only [succeeds, outcomes, perform, handleUpdateTask, awaitPatch, fetchTasks,
      awaitGet, start, setError, setLoading, setTasks, setEditingTask, showSnackbar,
      setSnackbar]
    cases hsel : c.ui.editingTask with
    | none => simp
    | some e =>
      cases h1 : (ax.patch e._id d c.remote).1 <;>
        cases h2 : (ax.get (ax.patch e._id d c.remote).2).1 <;> simp [h1, h2]
      exact ⟨_, h2, rfl⟩
  | delete d =>
    simp only [succeeds, outcomes, perform, handleDeleteTask, awaitDelete, fetchTasks,
      awaitGet, start, setError, setLoading, setTasks, showSnackbar, setSnackbar]
    cases h1 : (ax.delete d c.remote).1 <;> cases h2 : (ax.get (ax.delete d c.remote).2).1 <;>
      simp [h1, h2]
    exact ⟨_, h2, rfl⟩
  | toggleComplete t =>
    simp only [succeeds, outcomes, perform, handleToggleComplete, awaitPatch,
      fetchTasks, awaitGet, start, setError, setLoading, setTasks, showSnackbar, setSnackbar]
    cases h1 : (ax.patch t._id [("completed", Value.bool (!t.completed))] c.remote).1 <;>
      cases h2 : (ax.get (ax.patch t._id [("completed", Value.bool (!t.completed))]
        c.remote).2).1 <;> simp [h1, h2]
    exact ⟨_, h2, rfl⟩

end Sequences

section Service

theorem Server.get_tasks (r : Server) (l : List Task) (h : (serverAxios.get r).1 = some l) :
    (serverAxios.get r).2.tasks = l := by
  revert h
  simp only [serverAxios, Server.get]
  split <;> simp [Server.tick]

theorem performAll_server_tasks (ops : List Op) (c : Run Server) (hne : ops ≠ [])
    (h : allSucceed serverAxios ops c = true) :
    (performAll serverAxios ops c).ui.tasks = (performAll serverAxios ops c).remote.tasks := by
  induction ops generalizing c with
  | nil => exact absurd rfl hne
  | cons op ops ih =>
    simp only [allSucceed, Bool.and_eq_true] at h
    cases ops with
    | nil =>
      obtain ⟨r', h1, h2⟩ := perform_succeeds_fetch serverAxios op c h.1
      simp only [performAll]
      rw [h2, Server.get_tasks r' _ h1]
    | cons op' ops' => exact ih (perform serverAxios op c) (by simp) h.2

theorem specStep_act (a : Action) (c : Run Server) (x : Option Task × Server)
    (h : specStep a (c.ui.editingTask, c.remote) = some x) :
    (act serverAxios a c).remote = x.2 ∧ (act serverAxios a c).ui.editingTask = x.1 ∧
    ((act serverAxios a c).ui.tasks = x.2.tasks ∨
      ((∃ task, a = Action.selectForEdit task) ∧
        (act serverAxios a c).ui.tasks = c.ui.tasks ∧ x.2 = c.remote)) := by
  revert h
  cases a with
  | selectForEdit task =>
    simp only [specStep, act, setEditingTask, Option.some.injEq]
    rintro rfl
    simp
  | operate op =>
    cases op with
    | refresh =>
      simp only [specStep, specFetch, act, perform, fetchTasks, awaitGet, setError,
        setLoading, setTasks, serverAxios]
      cases h2 : (Server.get c.remote).1 with
      | none => simp [h2]
      | some l =>
        simp only [h2, Option.isSome_some, if_true, Option.some.injEq]
        rintro rfl
        simp
        exact (Server.get_tasks c.remote l h2).symm
    | add d =>
      simp only [specStep, specFetch, act, perform, handleAddTask, awaitPost, fetchTasks,
        awaitGet, setError, setLoading, setTasks, showSnackbar, setSnackbar, serverAxios]
      cases h1 : (Server.post d c.remote).1 with
      | false => simp [h1]
      | true =>
        cases h2 : (Server.get (Server.post d c.remote).2).1 with
        | none => simp [h1, h2]
        | some l =>
          simp only [h1, h2, Option.isSome_some, if_true, Option.some.injEq]
          rintro rfl
          simp
          exact (Server.get_tasks _ l h2).symm
    | update d =>
      simp only [specStep, specFetch, act, perform, handleUpdateTask, awaitPatch, fetchTasks,
        awaitGet, setError, setLoading, setTasks, setEditingTask, showSnackbar, setSnackbar,
        serverAxios]
      cases he : c.ui.editingTask with
      | none => simp
      | some e =>
        cases h1 : (Server.patch e._id d c.remote).1 with
        | false => simp [h1]
        | true =>
          cases h2 : (Server.get (Server.patch e._id d c.remote).2).1 with
          | none => simp [h1, h2]
          | some l =>
            simp only [h1, h2, Option.isSome_some, if_true, Option.some.injEq]
            rintro rfl
            simp
            exact (Server.get_tasks _ l h2).symm
    | delete d =>
      simp only [specStep, specFetch, act, perform, handleDeleteTask, awaitDelete, fetchTasks,
        awaitGet, setError, setLoading, setTasks, showSnackbar, setSnackbar, serverAxios]
      cases h1 : (Server.delete d c.remote).1 with
      | false => simp [h1]
      | true =>
        cases h2 : (Server.get (Server.delete d c.remote).2).1 with
        | none => simp [h1, h2]
        | some l =>
          simp only [h1, h2, Option.isSome_some, if_true, Option.some.injEq]
          rintro rfl
          simp
          exact (Server.get_tasks _ l h2).symm
    | toggleComplete t =>
      simp only [specStep, specFetch, act, perform, handleToggleComplete, awaitPatch,
        fetchTasks, awaitGet, setError, setLoading, setTasks, showSnackbar, setSnackbar,
        serverAxios]
      cases h1 : (Server.patch t._id [("completed", Value.bool (!t.completed))]
        c.remote).1 with
      | false => simp [h1]
      | true =>
        cases h2 : (Server.get (Server.patch t._id [("completed", Value.bool (!t.completed))]
          c.remote).2).1 with
        | none => simp [h1, h2]
        | some l =>
          simp only [h1, h2, Option.isSome_some, if_true, Option.some.injEq]
          rintro rfl
          simp
          exact (Server.get_tasks _ l h2).symm

theorem specRun_actAll (acts : List Action) (c : Run Server) (x : Option Task × Server)
    (h : specRun acts (c.ui.editingTask, c.remote) = some x) :
    (actAll serverAxios acts c).remote = x.2 ∧
    (actAll serverAxios acts c).ui.editingTask = x.1 ∧
    ((c.ui.tasks = c.remote.tasks ∨ ∃ op, Action.operate op ∈ acts) →
      (actAll serverAxios acts c).ui.tasks = x.2.tasks) := by
  induction acts generalizing c with
  | nil =>
    simp only [specRun, Option.some.injEq] at h
    subst h
    simp [actAll]
  | cons a acts ih =>
    simp only [specRun] at h
    cases hy : specStep a (c.ui.editingTask, c.remote) with
    | none => simp [hy] at h
    | some y =>
      rw [hy, Option.some_bind] at h
      obtain ⟨hr, hs, ht⟩ := specStep_act a c y hy
      have h1 : specRun acts ((act serverAxios a c).ui.editingTask,
          (act serverAxios a c).remote) = some x := by rw [hr, hs]; exact h
      obtain ⟨ir, is, it⟩ := ih (act serverAxios a c) h1
      refine ⟨ir, is, fun hsync => it ?_⟩
      rcases ht with ht | ⟨⟨task, rfl⟩, htasks, hremote⟩
      · exact Or.inl (by rw [ht, hr])
      · rcases hsync with hsync | ⟨op, hop⟩
        · exact Or.inl (by rw [htasks, hr, hremote, hsync])
        · refine Or.inr ⟨op, ?_⟩
          simpa using hop

/-- C3: for every sequence of add, update, delete and toggleComplete
operations (with the selections for editing in between, and at least one
operation) whose mutation calls and re-fetches all succeed at the task
service, the collection held after the last one is the task list of the
service after the same sequence, as the spec describes it; and it is the same
whatever collection was held before the sequence. -/
theorem collection_mirrors_service (acts : List Action) (s : State) (srv : Server)
    (sel : Option Task) (after : Server)
    (hop : ∃ op, Action.operate op ∈ acts)
    (hok : specRun acts (s.editingTask, srv) = some (sel, after)) :
    (actAll serverAxios acts (start s srv)).ui.tasks = after.tasks ∧
    (actAll serverAxios acts (start s srv)).remote = after ∧
    ∀ held : List Task,
      (actAll serverAxios acts (start { s with tasks := held } srv)).ui.tasks =
        (actAll serverAxios acts (start s srv)).ui.tasks := by
  obtain ⟨hr, _, ht⟩ := specRun_actAll acts (start s srv) (sel, after) hok
  refine ⟨ht (Or.inr hop), hr, fun held => ?_⟩
  obtain ⟨_, _, ht2⟩ := specRun_actAll acts (start { s with tasks := held } srv)
    (sel, after) hok
  rw [ht (Or.inr hop), ht2 (Or.inr hop)]

theorem collection_mirrors_service_witness :
    (actAll serverAxios session (start editingMilk service)).ui.tasks =
      [{ _id := "t1", title := "Buy oat milk", description := "two litres",
         completed := true }] ∧
    (actAll serverAxios session (start editingMilk service)).remote = serviceAfterSession :=
  ⟨(collection_mirrors_service session editingMilk service none serviceAfterSession
      ⟨Op.add addMilk, by decide⟩ (by decide)).1,
   (collection_mirrors_service session editingMilk service none serviceAfterSession
      ⟨Op.add addMilk, by decide⟩ (by decide)).2.1⟩

theorem applyFields_completed (b : Bool) (u : Task) :
    applyFields [("completed", Value.bool b)] u = { u with completed := b } := by
  simp [applyFields, setField]

theorem Server.get_some (r : Server) (l : List Task) (h : (serverAxios.get r).1 = some l) :
    l = r.tasks := by
  revert h
  simp only [serverAxios, Server.get]
  split <;> simp
  exact fun h => h.symm

theorem Server.patch_tasks (id : String) (body : Payload) (r : Server)
    (h : (serverAxios.patch id body r).1 = true) :
    (serverAxios.patch id body r).2.tasks =
      r.tasks.map (fun u => if u._id == id then applyFields body u else u) := by
  revert h
  simp only [serverAxios, Server.patch]
  split
  · simp
  · split <;> simp

theorem Server.delete_tasks (id : String) (r : Server)
    (h : (serverAxios.delete id r).1 = true) :
    (serverAxios.delete id r).2.tasks = r.tasks.filter (fun u => !(u._id == id)) := by
  revert h
  simp only [serverAxios, Server.delete]
  split
  · simp
  · split <;> simp

theorem toggle_on_service (c : Run Server) (t : Task)
    (h : succeeds serverAxios (Op.toggleComplete t) c = true) :
    (perform serverAxios (Op.toggleComplete t) c).ui.tasks =
      c.remote.tasks.map
        (fun u => if u._id == t._id then { u with completed := !t.completed } else u) ∧
    (perform serverAxios (Op.toggleComplete t) c).log.map Event.request =
      c.log.map Event.request ++
        [Request.patch t._id [("completed", Value.bool (!t.completed))], Request.get] := by
  rw [(perform_restart serverAxios _ c).1, (perform_restart serverAxios _ c).2.2]
  revert h
  simp only [succeeds, outcomes, perform, handleToggleComplete, awaitPatch, fetchTasks,
    awaitGet, start, setError, setLoading, setTasks, showSnackbar, setSnackbar]
  cases h1 : (serverAxios.patch t._id [("completed", Value.bool (!t.completed))] c.remote).1 <;>
    cases h2 : (serverAxios.get (serverAxios.patch t._id
      [("completed", Value.bool (!t.completed))] c.remote).2).1 <;> simp [h1, h2]
  rw [Server.get_some _ _ h2, Server.patch_tasks _ _ _ h1]
  simp [applyFields_completed]

theorem find_id_map_completed (l : List Task) (id id' : String) (b : Bool) :
    (l.map (fun u => if u._id == id' then { u with completed := b } else u)).find?
        (fun u => u._id == id) =
      (l.find? (fun u => u._id == id)).map
        (fun u => if u._id == id' then { u with completed := b } else u) := by
  rw [List.find?_map]
  congr 1
  apply congrArg (fun p => List.find? p l)
  funext u
  simp only [Function.comp]
  split <;> rfl

/-- C7: against the task service, whose update-by-id sets the fields given in
the payload: toggling a task and then toggling the same task as it appears in
the refreshed collection, every call succeeding, leaves the completed value of
that task in the collection equal to the one it had at first; each of the two
update calls carries exactly the field completed, set to the negation of the
completed value of the task passed in. -/
theorem toggle_twice_restores (s : State) (srv : Server) (t t' : Task)
    (h1 : succeeds serverAxios (Op.toggleComplete t) (start s srv) = true)
    (hsame : (perform serverAxios (Op.toggleComplete t) (start s srv)).ui.tasks.find?
      (fun u => u._id == t._id) = some t')
    (h2 : succeeds serverAxios (Op.toggleComplete t')
      (perform serverAxios (Op.toggleComplete t) (start s srv)) = true) :
    (∃ t2, (performAll serverAxios [Op.toggleComplete t, Op.toggleComplete t']
        (start s srv)).ui.tasks.find? (fun u => u._id == t._id) = some t2 ∧
      t2.completed = t.completed) ∧
    (performAll serverAxios [Op.toggleComplete t, Op.toggleComplete t']
        (start s srv)).log.map Event.request =
      [Request.patch t._id [("completed", Value.bool (!t.completed))], Request.get,
       Request.patch t'._id [("completed", Value.bool (!t'.completed))], Request.get] := by
  obtain ⟨ha, hb⟩ := toggle_on_service (start s srv) t h1
  obtain ⟨hc, hd⟩ := toggle_on_service _ t' h2
  have hmir := performAll_server_tasks [Op.toggleComplete t] (start s srv) (by simp)
    (by simp [allSucceed, h1])
  simp only [performAll] at hmir ⊢
  refine ⟨?_, ?_⟩
  · rw [hc, ← hmir, find_id_map_completed, hsame]
    have hfind := hsame
    rw [ha, find_id_map_completed] at hfind
    simp only [start] at hfind
    cases hu : List.find? (fun u => u._id == t._id) srv.tasks with
    | none => simp [hu] at hfind
    | some u0 =>
      have hid : (u0._id == t._id) = true := by
        simpa using List.find?_some hu
      simp only [hu, Option.map_some', hid, if_true, Option.some.injEq] at hfind
      subst hfind
      exact ⟨_, by simp; rfl, by simp⟩
  · rw [hd, hb]
    simp [start]

theorem toggle_twice_restores_witness :
    (∃ t2, (performAll serverAxios [Op.toggleComplete milk, Op.toggleComplete milkDone]
        (start editingMilk service)).ui.tasks.find? (fun u => u._id == milk._id) = some t2 ∧
      t2.completed = milk.completed) ∧
    (performAll serverAxios [Op.toggleComplete milk, Op.toggleComplete milkDone]
        (start editingMilk service)).log.map Event.request =
      [Request.patch milk._id [("completed", Value.bool (!milk.completed))], Request.get,
       Request.patch milkDone._id [("completed", Value.bool (!milkDone.completed))],
       Request.get] :=
  toggle_twice_restores editingMilk service milk milkDone (by decide) (by decide) (by decide)

/-- C10: refresh, add, delete and toggleComplete leave the editing selection as
it was, whatever the outcome of their calls; in particular, when the task
selected for editing is deleted and both calls succeed against the task
service, the operation ends without error, the refreshed collection holds no
task with that identifier, and the editing selection is still that task. -/
theorem selection_untouched {ρ : Type} (ax : Axios ρ) (s : State) (r : ρ) :
    (perform ax Op.refresh (start s r)).ui.editingTask = s.editingTask ∧
    (∀ taskData, (perform ax (Op.add taskData) (start s r)).ui.editingTask = s.editingTask) ∧
    (∀ taskId, (perform ax (Op.delete taskId) (start s r)).ui.editingTask = s.editingTask) ∧
    (∀ task, (perform ax (Op.toggleComplete task) (start s r)).ui.editingTask =
      s.editingTask) ∧
    (∀ (srv : Server) (t : Task), s.editingTask = some t →
      succeeds serverAxios (Op.delete t._id) (start s srv) = true →
      (perform serverAxios (Op.delete t._id) (start s srv)).ui.error = none ∧
      (∀ u ∈ (perform serverAxios (Op.delete t._id) (start s srv)).ui.tasks, u._id ≠ t._id) ∧
      (perform serverAxios (Op.delete t._id) (start s srv)).ui.editingTask = some t) := by
  refine ⟨?_, ?_, ?_, ?_, ?_⟩
  · simp only [perform, fetchTasks, awaitGet, start, setError, setLoading, setTasks]
    cases h2 : (ax.get r).1 <;> simp [h2]
  · intro d
    simp only [perform, handleAddTask, awaitPost, fetchTasks, awaitGet, start,
      setError, setLoading, setTasks, showSnackbar, setSnackbar]
    cases h1 : (ax.post d r).1 <;> cases h2 : (ax.get (ax.post d r).2).1 <;> simp [h1, h2]
  · intro d
    simp only [perform, handleDeleteTask, awaitDelete, fetchTasks, awaitGet, start,
      setError, setLoading, setTasks, showSnackbar, setSnackbar]
    cases h1 : (ax.delete d r).1 <;> cases h2 : (ax.get (ax.delete d r).2).1 <;> simp [h1, h2]
  · intro t
    simp only [perform, handleToggleComplete, awaitPatch, fetchTasks, awaitGet, start,
      setError, setLoading, setTasks, showSnackbar, setSnackbar]
    cases h1 : (ax.patch t._id [("completed", Value.bool (!t.completed))] r).1 <;>
      cases h2 : (ax.get (ax.patch t._id [("completed", Value.bool (!t.completed))] r).2).1 <;>
      simp [h1, h2]
  · intro srv t hsel
    simp only [succeeds, outcomes, perform, handleDeleteTask, awaitDelete, fetchTasks,
      awaitGet, start, setError, setLoading, setTasks, showSnackbar, setSnackbar]
    cases h1 : (serverAxios.delete t._id srv).1 <;>
      cases h2 : (serverAxios.get (serverAxios.delete t._id srv).2).1 <;>
      simp [h1, h2, hsel]
    rw [Server.get_some _ _ h2, Server.delete_tasks _ _ h1]
    intro u hu
    simpa using (List.mem_filter.mp hu).2

theorem selection_untouched_witness :
    (perform serverAxios (Op.delete milk._id) (start editingMilk service)).ui.error = none ∧
    (∀ u ∈ (perform serverAxios (Op.delete milk._id) (start editingMilk service)).ui.tasks,
      u._id ≠ milk._id) ∧
    (perform serverAxios (Op.delete milk._id) (start editingMilk service)).ui.editingTask =
      some milk :=
  (selection_untouched serverAxios editingMilk service).2.2.2.2 service milk
    (by decide) (by decide)

end Service

end HomePage
